import Mathlib

/-!
# pagecap: the request handler and the render-engine adapter

A shallow embedding of `internal/handler/handler.go` and
`internal/browser/browser.go`.

Conventions.

* A Go `string` is a Lean `String`, a Go `[]byte` is a `List UInt8` (the nil
  slice is `[]`), a Go `int` is an `Int` (the platform `int` is taken to be
  64 bits wide, `strconv.IntSize = 64`).
* A Go `error` is represented by its `Error()` text; `nil` is `none`.
* The collaborators the two functions drive (the screenshotter behind the
  `Screenshotter` interface, `url.Parse`, the embedded landing-page template,
  the playwright objects, the request context) are parameters; every call
  made on them is recorded, in order, in an effect trace.
* The standard-library helpers whose results the claims depend on
  (`strings.Contains`, `strconv.Atoi`, `strconv.Itoa`, `http.Error`,
  `http.NotFound`, the `http.ResponseWriter` of one request) are modelled
  after the Go standard library.
-/

namespace Pagecap

/-! ## Standard library: strings and strconv -/

/-- A Go error value, represented by its `Error()` text. -/
abbrev GoError := String

/-- The bytes of a Go string (its UTF-8 encoding). -/
def bytesOf (s : String) : List UInt8 := s.toUTF8.data.toList

/-- Whether `sub` occurs in `s` at some position (both as character lists). -/
def containsChars (sub : List Char) : List Char → Bool
  | [] => sub.isPrefixOf []
  | c :: cs => sub.isPrefixOf (c :: cs) || containsChars sub cs

/-- Go `strings.Contains(s, substr)`. -/
def stringsContains (s substr : String) : Bool :=
  containsChars substr.data s.data

/-- The two causes of a `*strconv.NumError`. -/
inductive NumError where
  | ErrSyntax
  | ErrRange
  deriving DecidableEq, Repr

/-- Go `strconv.IntSize` on a 64-bit platform. -/
def IntSize : Nat := 64

/-- The largest `uint64`. -/
def maxUint64 : Nat := 2 ^ 64 - 1

/-- The test `'0' <= c && c <= '9'` of `strconv.ParseUint`. -/
def isDigit (c : Char) : Bool := decide ('0' ≤ c) && decide (c ≤ '9')

/-- The digit loop of `strconv.ParseUint(s, 10, 64)`, started with accumulator
`n`. Returns the value and the error as Go does: on a range error the value is
the largest `uint64`, on a syntax error it is `0`. -/
def parseUintLoop : List Char → Nat → Nat × Option NumError
  | [], n => (n, none)
  | c :: cs, n =>
    if isDigit c then
      let d := c.toNat - ('0').toNat
      -- `n >= cutoff`, where `cutoff = maxUint64/10 + 1`: `n*base` overflows
      if n ≥ maxUint64 / 10 + 1 then (maxUint64, some NumError.ErrRange)
      else
        let n1 := n * 10 + d
        -- `n1 < n || n1 > maxVal`: `n+d` overflows
        if n1 > maxUint64 then (maxUint64, some NumError.ErrRange)
        else parseUintLoop cs n1
    else (0, some NumError.ErrSyntax)

/-- Go `strconv.ParseUint(s, 10, 64)`, on the characters of `s`. -/
def ParseUint (s : List Char) : Nat × Option NumError :=
  if s = [] then (0, some NumError.ErrSyntax) else parseUintLoop s 0

/-- Go `strconv.ParseInt(s, 10, 0)`: an optional sign, then an unsigned
decimal number, then the range check against `1 << (IntSize-1)`. -/
def ParseInt (s : String) : Int × Option NumError :=
  match s.data with
  | [] => (0, some NumError.ErrSyntax)
  | c :: cs =>
    let neg : Bool := c != '+' && c == '-'
    let rest : List Char := if c == '+' then cs else if c == '-' then cs else c :: cs
    let parsed := ParseUint rest
    let un := parsed.1
    if parsed.2 = some NumError.ErrSyntax then (0, some NumError.ErrSyntax)
    else
      let cutoff : Nat := 2 ^ (IntSize - 1)
      if !neg && decide (un ≥ cutoff) then
        ((cutoff : Int) - 1, some NumError.ErrRange)
      else if neg && decide (un > cutoff) then
        (-(cutoff : Int), some NumError.ErrRange)
      else
        (if neg then -(un : Int) else (un : Int), none)

/-- Go `strconv.Atoi(s)`, which is `ParseInt(s, 10, 0)` converted to `int`. -/
def Atoi (s : String) : Int × Option NumError := ParseInt s

/-- Go `strconv.Itoa(i)`: the decimal text of `i`. -/
def Itoa (i : Int) : String := toString i

/-! ## Standard library: net/http and net/url -/

/-- The constant `http.MethodGet`. -/
def MethodGet : String := "GET"

/-- The constant `http.StatusOK`. -/
def StatusOK : Nat := 200
/-- The constant `http.StatusBadRequest`. -/
def StatusBadRequest : Nat := 400
/-- The constant `http.StatusNotFound`. -/
def StatusNotFound : Nat := 404
/-- The constant `http.StatusMethodNotAllowed`. -/
def StatusMethodNotAllowed : Nat := 405
/-- The constant `http.StatusBadGateway`. -/
def StatusBadGateway : Nat := 502

/-- The response headers of one request. Only `Set`, `Del` and `Get` with
canonical keys are used, so each key holds one value. -/
abbrev Header := List (String × String)

/-- Go `http.Header.Del`. -/
def headerDel (h : Header) (key : String) : Header :=
  h.filter (fun kv => kv.1 != key)

/-- Go `http.Header.Set`. -/
def headerSet (h : Header) (key value : String) : Header :=
  (key, value) :: headerDel h key

/-- Go `http.Header.Get`: the value stored under `key`, or the empty string. -/
def headerGet (h : Header) (key : String) : String :=
  (h.lookup key).getD ""

/-- The `http.ResponseWriter` of one request: the header map, the status code
once the header has been written, and the body bytes written so far. -/
structure ResponseWriter where
  header : Header
  code : Option Nat
  body : List UInt8
  deriving DecidableEq, Repr

/-- The writer a handler starts with. -/
def ResponseWriter.fresh : ResponseWriter := ⟨[], none, []⟩

/-- The call `w.Header().Set(key, value)`. -/
def ResponseWriter.Set (w : ResponseWriter) (key value : String) : ResponseWriter :=
  { w with header := headerSet w.header key value }

/-- The call `w.Header().Del(key)`. -/
def ResponseWriter.Del (w : ResponseWriter) (key : String) : ResponseWriter :=
  { w with header := headerDel w.header key }

/-- The call `w.WriteHeader(code)`: only the first call takes effect. -/
def ResponseWriter.WriteHeader (w : ResponseWriter) (code : Nat) : ResponseWriter :=
  match w.code with
  | some _ => w
  | none => { w with code := some code }

/-- The call `w.Write(p)`: writes the header with status 200 when it has not been
written yet, then appends `p` to the body. -/
def ResponseWriter.Write (w : ResponseWriter) (p : List UInt8) : ResponseWriter :=
  let w1 := w.WriteHeader StatusOK
  { w1 with body := w1.body ++ p }

/-- The status code the client receives: 200 when the handler returned without
writing a header. -/
def ResponseWriter.status (w : ResponseWriter) : Nat := w.code.getD StatusOK

/-- The value of a response header. -/
def ResponseWriter.Get (w : ResponseWriter) (key : String) : String :=
  headerGet w.header key

/-- Go `http.Error(w, error, code)`: drops `Content-Length`, sets the plain-text
content type and `nosniff`, writes the status, then prints the message followed
by a newline (`fmt.Fprintln`). -/
def httpError (w : ResponseWriter) (error : String) (code : Nat) : ResponseWriter :=
  let w := w.Del "Content-Length"
  let w := w.Set "Content-Type" "text/plain; charset=utf-8"
  let w := w.Set "X-Content-Type-Options" "nosniff"
  let w := w.WriteHeader code
  w.Write (bytesOf (error ++ "\n"))

/-- Go `http.NotFound(w, r)`. -/
def httpNotFound (w : ResponseWriter) : ResponseWriter :=
  httpError w "404 page not found" StatusNotFound

/-- Go `url.Values`, the parsed query string: a map from a key to its values. -/
abbrev Values := List (String × List String)

/-- Go `url.Values.Get`: the first value stored under `key`, or the empty
string. -/
def Values.Get (v : Values) (key : String) : String :=
  match v.lookup key with
  | some (x :: _) => x
  | _ => ""

/-- The part of a parsed `*url.URL` the handler reads. -/
structure URL where
  Scheme : String
  deriving DecidableEq, Repr

/-- The observations one request makes of its `context.Context`: `Err()` before
navigation, whether `Done()` fires during the delay (with the `Err()` read right
after it), and `Err()` before the capture. -/
structure Context where
  errBeforeGoto : Option GoError
  doneDuringDelay : Option GoError
  errBeforeCapture : Option GoError
  deriving DecidableEq, Repr

/-- The live context: never cancelled. -/
def Context.background : Context := ⟨none, none, none⟩

/-- The scheme-splitting first stage of Go `url.Parse` (`getScheme`): the text
before the first `:` when it consists of letters, digits, `+`, `-`, `.` and
starts with a letter; the empty scheme when another character comes first; an
error when the text starts with `:`. `i` is the index of the head of the list
in the whole text, `acc` the characters read so far, in reverse. -/
def getScheme : List Char → Nat → List Char → Except GoError String
  | [], _, _ => .ok ""
  | c :: cs, i, acc =>
    if (decide ('a' ≤ c) && decide (c ≤ 'z')) || (decide ('A' ≤ c) && decide (c ≤ 'Z')) then
      getScheme cs (i + 1) (c :: acc)
    else if (decide ('0' ≤ c) && decide (c ≤ '9')) || c == '+' || c == '-' || c == '.' then
      if i = 0 then .ok "" else getScheme cs (i + 1) (c :: acc)
    else if c == ':' then
      if i = 0 then .error "missing protocol scheme" else .ok (String.mk acc.reverse)
    else .ok ""

/-- A stand-in for `url.Parse` that performs its scheme stage only: `getScheme`
followed by lower-casing. It instantiates the parser parameter of `ServeHTTP`
at concrete inputs. -/
def schemeParse (rawURL : String) : Except GoError URL :=
  match getScheme rawURL.data 0 [] with
  | .error e => .error ("parse \"" ++ rawURL ++ "\": " ++ e)
  | .ok scheme => .ok ⟨String.mk (scheme.data.map Char.toLower)⟩

/-! ## internal/handler/handler.go -/

/-- The constant `DefaultWidth`. -/
def DefaultWidth : Int := 640
/-- The constant `DefaultHeight`. -/
def DefaultHeight : Int := 480
/-- The constant `MaxDelay`. -/
def MaxDelay : Int := 10000

/-- The `Screenshotter` interface: `TakeScreenshot(ctx, url, width, height,
delayMs)` returns the image bytes and the error. -/
abbrev Screenshotter := Context → String → Int → Int → Int → List UInt8 × Option GoError

/-- The result of `uiTemplate.Execute(w, nil)` for the embedded
`templates/index.html`: the bytes it writes to `w` and the error it returns. -/
structure Template where
  output : List UInt8
  err : Option GoError
  deriving DecidableEq, Repr

/-- The package-level collaborators of the handler: `url.Parse` and the parsed
landing-page template `uiTemplate`. -/
structure Lib where
  urlParse : String → Except GoError URL
  uiTemplate : Template

/-- The `Handler` struct. -/
structure Handler where
  screenshotter : Screenshotter

/-- The constructor `New(s)`. -/
def New (s : Screenshotter) : Handler := ⟨s⟩

/-- The parts of an `*http.Request` the handler reads: `r.Method`,
`r.URL.Path`, `r.URL.Query()` and `r.Context()`. -/
structure Request where
  Method : String
  Path : String
  Query : Values
  Ctx : Context

/-- A call the handler makes on a collaborator. -/
inductive Effect where
  | urlParse (rawURL : String)
  | takeScreenshot (url : String) (width height delayMs : Int)
  | logPrintf (line : String)
  deriving DecidableEq, Repr

/-- Whether the effect is a call of `Screenshotter.TakeScreenshot`. -/
def Effect.isTakeScreenshot : Effect → Bool
  | .takeScreenshot _ _ _ _ => true
  | _ => false

/-- What one run of `ServeHTTP` leaves behind: the response and the calls made,
in order. -/
structure Outcome where
  w : ResponseWriter
  trace : List Effect
  deriving DecidableEq, Repr

/-- The function `parseIntOr(s, fallback)`. -/
def parseIntOr (s : String) (fallback : Int) : Int :=
  if s = "" then fallback
  else
    let r := Atoi s
    if r.2.isSome || decide (r.1 ≤ 0) then fallback
    else r.1

/-- The scheme step of `ServeHTTP` (handler.go, lines 60-63): `https://` is put
in front of `rawURL` when `rawURL` does not contain `://`. -/
def addScheme (rawURL : String) : String :=
  if !stringsContains rawURL "://" then "https://" ++ rawURL else rawURL

/-- The method `Handler.ServeHTTP(w, r)`, started on a fresh response writer. -/
def ServeHTTP (lib : Lib) (h : Handler) (r : Request) : Outcome :=
  let w := ResponseWriter.fresh
  if r.Path != "/" then
    ⟨httpNotFound w, []⟩
  else if r.Method != MethodGet then
    ⟨httpError w "Method not allowed" StatusMethodNotAllowed, []⟩
  else
    let rawURL := r.Query.Get "url"
    if rawURL == "" then
      let w := w.Set "Content-Type" "text/html; charset=utf-8"
      let w := if lib.uiTemplate.output = [] then w else w.Write lib.uiTemplate.output
      match lib.uiTemplate.err with
      | some err => ⟨w, [Effect.logPrintf ("template error: " ++ err)]⟩
      | none => ⟨w, []⟩
    else
      let rawURL := addScheme rawURL
      let bad : Outcome :=
        ⟨httpError w "only http and https URLs are allowed" StatusBadRequest,
          [Effect.urlParse rawURL]⟩
      match lib.urlParse rawURL with
      | .error _ => bad
      | .ok parsed =>
        if parsed.Scheme != "http" && parsed.Scheme != "https" then bad
        else
          let width := parseIntOr (r.Query.Get "width") DefaultWidth
          let height := parseIntOr (r.Query.Get "height") DefaultHeight
          let delayMs := min (parseIntOr (r.Query.Get "delay") 0) MaxDelay
          let line := "screenshot url=" ++ rawURL ++ " width=" ++ toString width
            ++ " height=" ++ toString height ++ " delay=" ++ toString delayMs
          let res := h.screenshotter r.Ctx rawURL width height delayMs
          let calls := [Effect.urlParse rawURL, Effect.logPrintf line,
            Effect.takeScreenshot rawURL width height delayMs]
          match res.2 with
          | some err =>
            ⟨httpError w err StatusBadGateway, calls ++ [Effect.logPrintf ("error: " ++ err)]⟩
          | none =>
            let w := w.Set "Content-Type" "image/png"
            let w := w.Set "Content-Length" (Itoa (res.1.length : Nat))
            ⟨w.Write res.1, calls⟩

/-! ## internal/browser/browser.go -/

/-- The results of the playwright calls one `TakeScreenshot` can make: the
errors of `browser.NewContext`, `ctx.NewPage` and `page.Goto`, and the result
of `page.Screenshot`. -/
structure Playwright where
  newContext : Option GoError
  newPage : Option GoError
  goto : String → Option GoError
  screenshot : List UInt8 × Option GoError

/-- The `Browser` struct: the navigation timeout, in milliseconds. -/
structure Browser where
  timeoutMs : Int
  deriving DecidableEq, Repr

/-- The constant `DefaultTimeout`, 30 seconds, in milliseconds. -/
def DefaultTimeout : Int := 30 * 1000

/-- A call `Browser.TakeScreenshot` makes on playwright or the clock. -/
inductive Step where
  | newContext (width height : Int)
  | newPage
  | goto (url : String) (timeoutMs : Int)
  | wait (delayMs : Int)
  | screenshot
  | pageClose
  | contextClose
  deriving DecidableEq, Repr

/-- Whether the step is the navigation `page.Goto`. -/
def Step.isGoto : Step → Bool
  | .goto _ _ => true
  | _ => false

/-- Whether the step is the capture `page.Screenshot`. -/
def Step.isScreenshot : Step → Bool
  | .screenshot => true
  | _ => false

/-- What one call of `Browser.TakeScreenshot` leaves behind: the returned
bytes, the returned error and the steps made, in order. -/
structure Capture where
  png : List UInt8
  err : Option GoError
  steps : List Step
  deriving DecidableEq, Repr

/-- The method `Browser.TakeScreenshot(reqCtx, url, width, height, delayMs)`. The deferred
`page.Close` and `ctx.Close` run on every return once their object exists. -/
def TakeScreenshot (b : Browser) (pw : Playwright) (reqCtx : Context) (url : String)
    (width height delayMs : Int) : Capture :=
  match pw.newContext with
  | some err => ⟨[], some ("creating browser context: " ++ err), [Step.newContext width height]⟩
  | none =>
    match pw.newPage with
    | some err =>
      ⟨[], some ("creating page: " ++ err),
        [Step.newContext width height, Step.newPage, Step.contextClose]⟩
    | none =>
      let opened := [Step.newContext width height, Step.newPage]
      let closed := [Step.pageClose, Step.contextClose]
      match reqCtx.errBeforeGoto with
      | some err => ⟨[], some err, opened ++ closed⟩
      | none =>
        let nav := opened ++ [Step.goto url b.timeoutMs]
        match pw.goto url with
        | some err => ⟨[], some ("navigating to " ++ url ++ ": " ++ err), nav ++ closed⟩
        | none =>
          let waited := if delayMs > 0 then nav ++ [Step.wait delayMs] else nav
          match (if delayMs > 0 then reqCtx.doneDuringDelay else none) with
          | some err => ⟨[], some err, waited ++ closed⟩
          | none =>
            match reqCtx.errBeforeCapture with
            | some err => ⟨[], some err, waited ++ closed⟩
            | none =>
              let shot := waited ++ [Step.screenshot]
              match pw.screenshot.2 with
              | some err => ⟨[], some ("taking screenshot: " ++ err), shot ++ closed⟩
              | none => ⟨pw.screenshot.1, none, shot ++ closed⟩

/-- The method `Browser.TakeScreenshot` as an implementation of `Screenshotter`, as wired
in `main`. -/
def Browser.asScreenshotter (b : Browser) (pw : Playwright) : Screenshotter :=
  fun ctx url width height delayMs =>
    let c := TakeScreenshot b pw ctx url width height delayMs
    (c.png, c.err)

/-! ## Derived notions used to state the properties -/

/-- Whether no call of `Screenshotter.TakeScreenshot` was made. -/
def Outcome.neverShot (o : Outcome) : Bool :=
  o.trace.all (fun e => !e.isTakeScreenshot)

/-- The arguments of a call of `Screenshotter.TakeScreenshot`: url, width,
height and delay. -/
def Effect.shotArgs : Effect → Option (String × Int × Int × Int)
  | .takeScreenshot url width height delayMs => some (url, width, height, delayMs)
  | _ => none

/-- The calls of `Screenshotter.TakeScreenshot` made, as argument tuples. -/
def Outcome.shots (o : Outcome) : List (String × Int × Int × Int) :=
  o.trace.filterMap Effect.shotArgs

/-- Whether the request is a render request the handler accepts: `GET /` with a
non-empty `url` whose value, after the scheme step, parses to scheme `http` or
`https`. -/
def accepted (lib : Lib) (r : Request) : Bool :=
  r.Path == "/" && r.Method == MethodGet && r.Query.Get "url" != "" &&
    match lib.urlParse (addScheme (r.Query.Get "url")) with
    | .ok u => u.Scheme == "http" || u.Scheme == "https"
    | .error _ => false

/-- The width the handler computes (handler.go, line 71). -/
def widthOf (r : Request) : Int := parseIntOr (r.Query.Get "width") DefaultWidth

/-- The height the handler computes (handler.go, line 72). -/
def heightOf (r : Request) : Int := parseIntOr (r.Query.Get "height") DefaultHeight

/-- The delay the handler computes (handler.go, line 73). -/
def delayOf (r : Request) : Int := min (parseIntOr (r.Query.Get "delay") 0) MaxDelay

/-- The result of the call of `TakeScreenshot` the handler makes for an accepted
request (handler.go, line 77). -/
def shotResult (h : Handler) (r : Request) : List UInt8 × Option GoError :=
  h.screenshotter r.Ctx (addScheme (r.Query.Get "url")) (widthOf r) (heightOf r) (delayOf r)

/-! ## Decimal strings, in the words of the specification -/

/-- The number a string of decimal digits denotes. -/
def decimalValue (s : String) : Nat :=
  s.data.foldl (fun n c => 10 * n + (c.toNat - 48)) 0

/-- Whether the string is a non-empty sequence of decimal digits. -/
def isDigits (s : String) : Bool := !s.data.isEmpty && s.data.all Char.isDigit

/-- Whether the string is numeric: an optional sign followed by a non-empty
sequence of decimal digits. -/
def isIntegerText (s : String) : Bool :=
  match s.data with
  | [] => false
  | c :: cs =>
    if c = '+' ∨ c = '-' then !cs.isEmpty && cs.all Char.isDigit
    else (c :: cs).all Char.isDigit

/-- Whether the string is a positive integer string: decimal digits that denote
a number above zero. -/
def isPositiveIntegerText (s : String) : Bool := isDigits s && decide (0 < decimalValue s)

/-- Whether the string starts with `scheme://`: a letter, then letters, digits,
`+`, `-` or `.`, then `://`. -/
def startsWithScheme (v : String) : Bool :=
  let isSchemeChar : Char → Bool :=
    fun c => c.isAlphanum || c == '+' || c == '-' || c == '.'
  match v.data with
  | [] => false
  | c :: cs => c.isAlpha && ("://").data.isPrefixOf (cs.dropWhile isSchemeChar)

/-! ## Sample collaborators for concrete runs -/

/-- A screenshotter that returns the four bytes of the PNG magic prefix. -/
def pngShot : Screenshotter := fun _ _ _ _ _ => ([0x89, 0x50, 0x4e, 0x47], none)

/-- A screenshotter that fails with `browser crashed`. -/
def crashShot : Screenshotter := fun _ _ _ _ _ => ([], some "browser crashed")

/-- The collaborators of the concrete runs: the scheme-stage parser and a
landing page whose rendering is `<html>`. -/
def sampleLib : Lib := ⟨schemeParse, ⟨[60, 104, 116, 109, 108, 62], none⟩⟩

/-- The request `method path?query` on a live context. -/
def mkRequest (method path : String) (query : Values) : Request :=
  ⟨method, path, query, Context.background⟩

/-- A playwright whose calls all succeed and whose capture is four bytes. -/
def healthyPlaywright : Playwright := ⟨none, none, fun _ => none, ([0x89, 0x50, 0x4e, 0x47], none)⟩

/-! ## strconv: what the digit loop computes -/

theorem isDigit_eq (c : Char) : isDigit c = c.isDigit := by
  simp only [isDigit, Char.isDigit, Char.le_def, ge_iff_le]
  rfl

theorem maxUint64_eq : maxUint64 = 18446744073709551615 := by decide

theorem zero_toNat : ('0').toNat = 48 := by decide

theorem le_foldl_digits (cs : List Char) (n : Nat) :
    n ≤ cs.foldl (fun n c => 10 * n + (c.toNat - 48)) n := by
  induction cs generalizing n with
  | nil => simp
  | cons c cs ih =>
    simp only [List.foldl_cons]
    exact le_trans (by omega) (ih _)

/-- On digits whose value fits in a `uint64` the loop returns the value. -/
theorem parseUintLoop_of_fits (cs : List Char) (n : Nat)
    (hd : cs.all Char.isDigit = true)
    (hfit : cs.foldl (fun n c => 10 * n + (c.toNat - 48)) n ≤ maxUint64) :
    parseUintLoop cs n = (cs.foldl (fun n c => 10 * n + (c.toNat - 48)) n, none) := by
  induction cs generalizing n with
  | nil => simp [parseUintLoop]
  | cons c cs ih =>
    simp only [List.all_cons, Bool.and_eq_true] at hd
    simp only [List.foldl_cons] at hfit ⊢
    have hmono := le_foldl_digits cs (10 * n + (c.toNat - 48))
    rw [maxUint64_eq] at hfit
    have h1 : ¬ (n ≥ maxUint64 / 10 + 1) := by rw [maxUint64_eq]; omega
    have h2 : ¬ (n * 10 + (c.toNat - 48) > maxUint64) := by rw [maxUint64_eq]; omega
    have h3 : n * 10 + (c.toNat - 48) = 10 * n + (c.toNat - 48) := by omega
    simp only [parseUintLoop, isDigit_eq, hd.1, if_true, zero_toNat, h1, h2, if_false]
    rw [h3]
    exact ih _ hd.2 (by rw [maxUint64_eq]; exact hfit)

/-- On digits whose value does not fit in a `uint64` the loop reports a range
error. -/
theorem parseUintLoop_of_overflow (cs : List Char) (n : Nat)
    (hd : cs.all Char.isDigit = true) (hn : n ≤ maxUint64)
    (hbig : maxUint64 < cs.foldl (fun n c => 10 * n + (c.toNat - 48)) n) :
    parseUintLoop cs n = (maxUint64, some NumError.ErrRange) := by
  induction cs generalizing n with
  | nil => simp at hbig; omega
  | cons c cs ih =>
    simp only [List.all_cons, Bool.and_eq_true] at hd
    simp only [List.foldl_cons] at hbig
    simp only [parseUintLoop, isDigit_eq, hd.1, if_true, zero_toNat]
    by_cases h1 : n ≥ maxUint64 / 10 + 1
    · simp [h1]
    · by_cases h2 : n * 10 + (c.toNat - 48) > maxUint64
      · simp [h1, h2]
      · have h3 : n * 10 + (c.toNat - 48) = 10 * n + (c.toNat - 48) := by omega
        simp only [h1, h2, if_false]
        rw [h3]
        exact ih _ hd.2 (by omega) hbig

/-- The loop fails on a string that has a character other than a digit. -/
theorem parseUintLoop_of_nondigit (cs : List Char) (n : Nat)
    (hd : cs.all Char.isDigit = false) :
    parseUintLoop cs n = (0, some NumError.ErrSyntax) ∨
      parseUintLoop cs n = (maxUint64, some NumError.ErrRange) := by
  induction cs generalizing n with
  | nil => simp at hd
  | cons c cs ih =>
    by_cases hc : c.isDigit = true
    · have hcs : cs.all Char.isDigit = false := by
        simpa [List.all_cons, hc] using hd
      simp only [parseUintLoop, isDigit_eq, hc, if_true, zero_toNat]
      by_cases h1 : n ≥ maxUint64 / 10 + 1
      · simp [h1]
      · by_cases h2 : n * 10 + (c.toNat - 48) > maxUint64
        · simp [h1, h2]
        · simp only [h1, h2, if_false]
          exact ih _ hcs
    · simp [parseUintLoop, isDigit_eq, hc]

theorem cutoff_eq : (2 : Nat) ^ (IntSize - 1) = 9223372036854775808 := by decide

theorem not_sign_of_isDigit (c : Char) (hc : c.isDigit = true) : c ≠ '+' ∧ c ≠ '-' := by
  constructor <;> rintro rfl <;> exact absurd hc (by decide)

/-- The result of `ParseInt` on a string of decimal digits: the value when it is below
`2^63`, a range error otherwise. -/
theorem ParseInt_of_digits (s : String) (hd : isDigits s = true) :
    ParseInt s = if decimalValue s < 2 ^ 63 then ((decimalValue s : Int), none)
      else (2 ^ 63 - 1, some NumError.ErrRange) := by
  unfold isDigits at hd
  unfold ParseInt decimalValue
  cases hs : s.data with
  | nil => simp [hs] at hd
  | cons c cs =>
    rw [hs] at hd
    simp only [List.isEmpty_cons, Bool.not_false, Bool.true_and] at hd
    have hc : c.isDigit = true := by
      simp only [List.all_cons, Bool.and_eq_true] at hd; exact hd.1
    obtain ⟨hplus, hminus⟩ := not_sign_of_isDigit c hc
    have hne : (c :: cs) ≠ [] := by simp
    by_cases hfit : (c :: cs).foldl (fun n c => 10 * n + (c.toNat - 48)) 0 ≤ maxUint64
    · simp only [ParseUint, hne, if_false, hplus, hminus, beq_iff_eq, bne_iff_ne, ne_eq,
        not_false_eq_true, decide_True, decide_False, Bool.and_false, cutoff_eq,
        Bool.false_eq_true, parseUintLoop_of_fits _ _ hd hfit]
      generalize (c :: cs).foldl (fun n c => 10 * n + (c.toNat - 48)) 0 = V at hfit ⊢
      by_cases hlt : V < 9223372036854775808
      · have h4 : ¬ (9223372036854775808 ≤ V) := by omega
        simp [hlt, h4, hplus, hminus]
      · have h4 : 9223372036854775808 ≤ V := by omega
        simp [hlt, h4, hplus, hminus]
    · simp only [ParseUint, hne, if_false, hplus, hminus, beq_iff_eq, bne_iff_ne, ne_eq,
        not_false_eq_true, decide_True, decide_False, Bool.and_false, cutoff_eq,
        Bool.false_eq_true,
        parseUintLoop_of_overflow _ 0 hd (by rw [maxUint64_eq]; omega) (by omega)]
      generalize (c :: cs).foldl (fun n c => 10 * n + (c.toNat - 48)) 0 = V at hfit ⊢
      have hlt : ¬ (V < 9223372036854775808) := by
        rw [maxUint64_eq] at hfit; omega
      simp [hlt, hplus, hminus, maxUint64_eq]

/-- The function `ParseInt` fails on a string that is not numeric. -/
theorem ParseInt_of_not_numeric (s : String) (hn : isIntegerText s = false) :
    (ParseInt s).2.isSome = true := by
  unfold isIntegerText at hn
  unfold ParseInt
  cases hs : s.data with
  | nil => simp
  | cons c cs =>
    rw [hs] at hn
    simp only at hn
    by_cases hsign : c = '+' ∨ c = '-'
    · simp only [hsign, if_true, Bool.and_eq_false_iff, Bool.not_eq_false_eq_eq_true,
        List.isEmpty_iff] at hn
      have hrest : (if (c == '+') = true then cs else if (c == '-') = true then cs else c :: cs)
          = cs := by
        rcases hsign with h | h <;> simp [h]
      simp only [hrest]
      rcases hn with hnil | hnd
      · subst hnil
        simp [ParseUint]
      · by_cases hcs : cs = []
        · subst hcs; simp [ParseUint]
        · simp only [ParseUint, hcs, if_false]
          rcases parseUintLoop_of_nondigit cs 0 hnd with h | h
          · simp [h]
          · rcases hsign with hc | hc <;> simp [h, hc, cutoff_eq, maxUint64_eq]
    · simp only [hsign, if_false] at hn
      have hplus : c ≠ '+' := fun h => hsign (Or.inl h)
      have hminus : c ≠ '-' := fun h => hsign (Or.inr h)
      have hne : (c :: cs) ≠ [] := by simp
      simp only [hplus, hminus, beq_iff_eq, if_false, ParseUint, hne]
      rcases parseUintLoop_of_nondigit (c :: cs) 0 hn with h | h
      · simp [h]
      · simp [h, hplus, hminus, cutoff_eq, maxUint64_eq]

/-- The function `ParseInt`, on a string that starts with a minus sign fails or returns a
value that is not positive. -/
theorem ParseInt_of_minus (s : String) (cs : List Char) (hs : s.data = '-' :: cs) :
    (ParseInt s).2.isSome = true ∨ (ParseInt s).1 ≤ 0 := by
  unfold ParseInt
  rw [hs]
  simp only
  by_cases h1 : (ParseUint cs).2 = some NumError.ErrSyntax
  · left; simp [h1]
  · by_cases h2 : (ParseUint cs).1 > 2 ^ (IntSize - 1)
    · left; simp [h1, h2]
    · right
      simp [h1, h2]

/-! ## The handler, branch by branch -/

theorem status_httpError (msg : String) (code : Nat) :
    (httpError ResponseWriter.fresh msg code).status = code := by
  simp [httpError, ResponseWriter.fresh, ResponseWriter.Del, ResponseWriter.Set,
    ResponseWriter.WriteHeader, ResponseWriter.Write, ResponseWriter.status]

theorem body_httpError (msg : String) (code : Nat) :
    (httpError ResponseWriter.fresh msg code).body = bytesOf (msg ++ "\n") := by
  simp [httpError, ResponseWriter.fresh, ResponseWriter.Del, ResponseWriter.Set,
    ResponseWriter.WriteHeader, ResponseWriter.Write]

theorem header_httpError (msg : String) (code : Nat) :
    (httpError ResponseWriter.fresh msg code).header =
      [("X-Content-Type-Options", "nosniff"), ("Content-Type", "text/plain; charset=utf-8")] := by
  simp [httpError, ResponseWriter.fresh, ResponseWriter.Del, ResponseWriter.Set,
    ResponseWriter.WriteHeader, ResponseWriter.Write, headerSet, headerDel]

theorem ServeHTTP_notRoot (lib : Lib) (h : Handler) (r : Request) (hp : r.Path ≠ "/") :
    ServeHTTP lib h r = ⟨httpNotFound ResponseWriter.fresh, []⟩ := by
  simp [ServeHTTP, hp]

theorem ServeHTTP_notGet (lib : Lib) (h : Handler) (r : Request) (hp : r.Path = "/")
    (hm : r.Method ≠ MethodGet) :
    ServeHTTP lib h r =
      ⟨httpError ResponseWriter.fresh "Method not allowed" StatusMethodNotAllowed, []⟩ := by
  simp [ServeHTTP, hp, hm]

theorem ServeHTTP_rejected (lib : Lib) (h : Handler) (r : Request) (hp : r.Path = "/")
    (hm : r.Method = MethodGet) (hu : r.Query.Get "url" ≠ "")
    (hbad : (∃ e, lib.urlParse (addScheme (r.Query.Get "url")) = Except.error e) ∨
      ∃ u, lib.urlParse (addScheme (r.Query.Get "url")) = Except.ok u ∧
        u.Scheme ≠ "http" ∧ u.Scheme ≠ "https") :
    ServeHTTP lib h r =
      ⟨httpError ResponseWriter.fresh "only http and https URLs are allowed" StatusBadRequest,
        [Effect.urlParse (addScheme (r.Query.Get "url"))]⟩ := by
  rcases hbad with ⟨e, he⟩ | ⟨u, hu1, hu2, hu3⟩
  · simp [ServeHTTP, hp, hm, hu, he]
  · simp [ServeHTTP, hp, hm, hu, hu1, hu2, hu3]

theorem accepted_spec (lib : Lib) (r : Request) (ha : accepted lib r = true) :
    r.Path = "/" ∧ r.Method = MethodGet ∧ r.Query.Get "url" ≠ "" ∧
      ∃ u, lib.urlParse (addScheme (r.Query.Get "url")) = Except.ok u ∧
        (u.Scheme = "http" ∨ u.Scheme = "https") := by
  unfold accepted at ha
  simp only [Bool.and_eq_true, beq_iff_eq, bne_iff_ne, ne_eq] at ha
  obtain ⟨⟨⟨hp, hm⟩, hu⟩, hx⟩ := ha
  refine ⟨hp, hm, hu, ?_⟩
  cases hparse : lib.urlParse (addScheme (r.Query.Get "url")) with
  | error e => rw [hparse] at hx; simp at hx
  | ok u =>
    rw [hparse] at hx
    simp only [Bool.or_eq_true, beq_iff_eq] at hx
    exact ⟨u, rfl, hx⟩

theorem ServeHTTP_accepted (lib : Lib) (h : Handler) (r : Request)
    (ha : accepted lib r = true) :
    ServeHTTP lib h r =
      match (shotResult h r).2 with
      | some err =>
        ⟨httpError ResponseWriter.fresh err StatusBadGateway,
          [Effect.urlParse (addScheme (r.Query.Get "url")),
            Effect.logPrintf ("screenshot url=" ++ addScheme (r.Query.Get "url") ++ " width="
              ++ toString (widthOf r) ++ " height=" ++ toString (heightOf r) ++ " delay="
              ++ toString (delayOf r)),
            Effect.takeScreenshot (addScheme (r.Query.Get "url")) (widthOf r) (heightOf r)
              (delayOf r),
            Effect.logPrintf ("error: " ++ err)]⟩
      | none =>
        ⟨((ResponseWriter.fresh.Set "Content-Type" "image/png").Set "Content-Length"
            (Itoa ((shotResult h r).1.length : Nat))).Write (shotResult h r).1,
          [Effect.urlParse (addScheme (r.Query.Get "url")),
            Effect.logPrintf ("screenshot url=" ++ addScheme (r.Query.Get "url") ++ " width="
              ++ toString (widthOf r) ++ " height=" ++ toString (heightOf r) ++ " delay="
              ++ toString (delayOf r)),
            Effect.takeScreenshot (addScheme (r.Query.Get "url")) (widthOf r) (heightOf r)
              (delayOf r)]⟩ := by
  obtain ⟨hp, hm, hu, u, hu1, hu2⟩ := accepted_spec lib r ha
  have hs : ((u.Scheme != "http") && (u.Scheme != "https")) = false := by
    rcases hu2 with h1 | h1 <;> simp [h1]
  simp only [ServeHTTP, hp, hm, hu1, hs, shotResult, widthOf, heightOf, delayOf]
  cases hres : (h.screenshotter r.Ctx (addScheme (r.Query.Get "url"))
      (parseIntOr (r.Query.Get "width") DefaultWidth)
      (parseIntOr (r.Query.Get "height") DefaultHeight)
      (min (parseIntOr (r.Query.Get "delay") 0) MaxDelay)).2 <;> simp [hu]

theorem ServeHTTP_landing (lib : Lib) (h : Handler) (r : Request) (hp : r.Path = "/")
    (hm : r.Method = MethodGet) (hu : r.Query.Get "url" = "") :
    (ServeHTTP lib h r).w =
        (if lib.uiTemplate.output = [] then
          ResponseWriter.fresh.Set "Content-Type" "text/html; charset=utf-8"
        else
          (ResponseWriter.fresh.Set "Content-Type" "text/html; charset=utf-8").Write
            lib.uiTemplate.output) ∧
      (ServeHTTP lib h r).neverShot = true := by
  cases he : lib.uiTemplate.err <;>
    simp [ServeHTTP, hp, hm, hu, he, Outcome.neverShot, Effect.isTakeScreenshot]

/-! ## parseIntOr -/

theorem parseIntOr_of_error (s : String) (f : Int) (h : (Atoi s).2.isSome = true) :
    parseIntOr s f = f := by
  simp [parseIntOr, h]

theorem parseIntOr_of_nonpos (s : String) (f : Int) (h : (Atoi s).1 ≤ 0) :
    parseIntOr s f = f := by
  simp [parseIntOr, h]

theorem parseIntOr_of_pos (s : String) (f v : Int) (h : Atoi s = (v, none)) (hv : 0 < v) :
    parseIntOr s f = v := by
  have hne : s ≠ "" := by
    rintro rfl
    have h2 : (Atoi "").2 = none := by rw [h]
    exact absurd h2 (by decide)
  have hv2 : ¬ (v ≤ 0) := by omega
  simp [parseIntOr, hne, h, hv2]

theorem parseIntOr_nonneg (s : String) : 0 ≤ parseIntOr s 0 := by
  by_cases h1 : (Atoi s).2.isSome = true
  · rw [parseIntOr_of_error s 0 h1]
  · by_cases h2 : (Atoi s).1 ≤ 0
    · rw [parseIntOr_of_nonpos s 0 h2]
    · by_cases h3 : s = ""
      · simp [parseIntOr, h3]
      · simp only [parseIntOr, h3, if_false, h1, Bool.false_or, decide_eq_true_eq, h2]
        omega

theorem parseIntOr_of_positive_fits (s : String) (f : Int)
    (hpos : isPositiveIntegerText s = true) (hfit : decimalValue s ≤ 2 ^ 63 - 1) :
    parseIntOr s f = (decimalValue s : Int) := by
  simp only [isPositiveIntegerText, Bool.and_eq_true, decide_eq_true_eq] at hpos
  have hlt : decimalValue s < 2 ^ 63 := by omega
  have hA : Atoi s = ((decimalValue s : Int), none) := by
    simp only [Atoi, ParseInt_of_digits s hpos.1, hlt, if_true]
  exact parseIntOr_of_pos s f _ hA (by exact_mod_cast hpos.2)

theorem parseIntOr_of_positive_overflow (s : String) (f : Int)
    (hpos : isPositiveIntegerText s = true) (hbig : 2 ^ 63 ≤ decimalValue s) :
    parseIntOr s f = f := by
  simp only [isPositiveIntegerText, Bool.and_eq_true, decide_eq_true_eq] at hpos
  have hlt : ¬ (decimalValue s < 2 ^ 63) := by omega
  apply parseIntOr_of_error
  simp only [Atoi, ParseInt_of_digits s hpos.1, hlt, if_false]
  rfl

theorem shots_of_accepted (lib : Lib) (h : Handler) (r : Request) (ha : accepted lib r = true) :
    (ServeHTTP lib h r).shots =
      [(addScheme (r.Query.Get "url"), widthOf r, heightOf r, delayOf r)] := by
  rw [ServeHTTP_accepted lib h r ha]
  cases (shotResult h r).2 <;> simp [Outcome.shots, Effect.shotArgs, List.filterMap]

/-! ## Routing: C9, C10, C7, C1 -/

/-- C9: a request whose path is not exactly `/` is answered with 404 whatever
its method and query string, and the screenshotter is not called; the path test
comes before the method test, so a non-GET request to another path is answered
with 404 as well, not with 405. -/
theorem C9_not_root_is_404 (lib : Lib) (h : Handler) (r : Request) (hp : r.Path ≠ "/") :
    (ServeHTTP lib h r).w.status = 404 ∧ (ServeHTTP lib h r).neverShot = true ∧
      (ServeHTTP lib h r).trace = [] := by
  rw [ServeHTTP_notRoot lib h r hp]
  refine ⟨?_, ?_, rfl⟩
  · simp [httpNotFound, status_httpError, StatusNotFound]
  · simp [Outcome.neverShot]

/-- Witness of C9: `POST /favicon.ico?url=https://example.com`. -/
theorem C9_not_root_is_404_witness :
    (ServeHTTP sampleLib (New pngShot)
        (mkRequest "POST" "/favicon.ico" [("url", ["https://example.com"])])).w.status = 404 ∧
      (ServeHTTP sampleLib (New pngShot)
        (mkRequest "POST" "/favicon.ico" [("url", ["https://example.com"])])).neverShot = true ∧
      (ServeHTTP sampleLib (New pngShot)
        (mkRequest "POST" "/favicon.ico" [("url", ["https://example.com"])])).trace = [] :=
  C9_not_root_is_404 sampleLib (New pngShot)
    (mkRequest "POST" "/favicon.ico" [("url", ["https://example.com"])]) (by decide)

/-- C10: a request to `/` whose method is not GET is answered with 405 whatever
its query string, and the screenshotter is not called. -/
theorem C10_not_get_is_405 (lib : Lib) (h : Handler) (r : Request) (hp : r.Path = "/")
    (hm : r.Method ≠ "GET") :
    (ServeHTTP lib h r).w.status = 405 ∧ (ServeHTTP lib h r).neverShot = true := by
  rw [ServeHTTP_notGet lib h r hp hm]
  refine ⟨?_, ?_⟩
  · simp [status_httpError, StatusMethodNotAllowed]
  · simp [Outcome.neverShot]

/-- Witness of C10: `POST /?url=https://example.com`. -/
theorem C10_not_get_is_405_witness :
    (ServeHTTP sampleLib (New pngShot)
        (mkRequest "POST" "/" [("url", ["https://example.com"])])).w.status = 405 ∧
      (ServeHTTP sampleLib (New pngShot)
        (mkRequest "POST" "/" [("url", ["https://example.com"])])).neverShot = true :=
  C10_not_get_is_405 sampleLib (New pngShot)
    (mkRequest "POST" "/" [("url", ["https://example.com"])]) (by decide) (by decide)

/-- C7: a GET request to `/` without a `url` value (absent or empty), whatever
its other query parameters, is answered with status 200 and content type
`text/html; charset=utf-8`; the body is what the landing-page template renders,
so it is non-empty as the template output is; the screenshotter is not
called. -/
theorem C7_no_url_serves_landing_page (lib : Lib) (h : Handler) (r : Request)
    (hp : r.Path = "/") (hm : r.Method = "GET") (hu : r.Query.Get "url" = "")
    (hpage : lib.uiTemplate.output ≠ []) :
    (ServeHTTP lib h r).w.status = 200 ∧
      (ServeHTTP lib h r).w.Get "Content-Type" = "text/html; charset=utf-8" ∧
      (ServeHTTP lib h r).w.body = lib.uiTemplate.output ∧
      (ServeHTTP lib h r).w.body ≠ [] ∧
      (ServeHTTP lib h r).neverShot = true := by
  obtain ⟨hw, hn⟩ := ServeHTTP_landing lib h r hp hm hu
  rw [hw]
  simp [hpage, hn, ResponseWriter.fresh, ResponseWriter.Set, ResponseWriter.Write,
    ResponseWriter.WriteHeader, ResponseWriter.status, ResponseWriter.Get, headerGet,
    headerSet, headerDel, StatusOK, List.lookup]

/-- Witness of C7: `GET /?width=1024`. -/
theorem C7_no_url_serves_landing_page_witness :
    (ServeHTTP sampleLib (New pngShot) (mkRequest "GET" "/" [("width", ["1024"])])).w.status
        = 200 ∧
      (ServeHTTP sampleLib (New pngShot) (mkRequest "GET" "/" [("width", ["1024"])])).w.Get
        "Content-Type" = "text/html; charset=utf-8" ∧
      (ServeHTTP sampleLib (New pngShot) (mkRequest "GET" "/" [("width", ["1024"])])).w.body
        = sampleLib.uiTemplate.output ∧
      (ServeHTTP sampleLib (New pngShot) (mkRequest "GET" "/" [("width", ["1024"])])).w.body
        ≠ [] ∧
      (ServeHTTP sampleLib (New pngShot) (mkRequest "GET" "/" [("width", ["1024"])])).neverShot = true :=
  C7_no_url_serves_landing_page sampleLib (New pngShot)
    (mkRequest "GET" "/" [("width", ["1024"])]) (by decide) (by decide) (by decide) (by decide)

/-- C1: a GET request to `/` with a non-empty `url` whose value, after the
scheme step, fails to parse or parses to a scheme that is neither `http` nor
`https`, is answered with 400 and the screenshotter is not called. -/
theorem C1_bad_scheme_is_400 (lib : Lib) (h : Handler) (r : Request)
    (hp : r.Path = "/") (hm : r.Method = "GET") (hu : r.Query.Get "url" ≠ "")
    (hbad : (∃ e, lib.urlParse (addScheme (r.Query.Get "url")) = Except.error e) ∨
      ∃ u, lib.urlParse (addScheme (r.Query.Get "url")) = Except.ok u ∧
        u.Scheme ≠ "http" ∧ u.Scheme ≠ "https") :
    (ServeHTTP lib h r).w.status = 400 ∧ (ServeHTTP lib h r).neverShot = true := by
  rw [ServeHTTP_rejected lib h r hp hm hu hbad]
  refine ⟨?_, ?_⟩
  · simp [status_httpError, StatusBadRequest]
  · simp [Outcome.neverShot, Effect.isTakeScreenshot]

/-- Witness of C1: `GET /?url=ftp://example.com`. -/
theorem C1_bad_scheme_is_400_witness :
    (ServeHTTP sampleLib (New pngShot)
        (mkRequest "GET" "/" [("url", ["ftp://example.com"])])).w.status = 400 ∧
      (ServeHTTP sampleLib (New pngShot)
        (mkRequest "GET" "/" [("url", ["ftp://example.com"])])).neverShot = true :=
  C1_bad_scheme_is_400 sampleLib (New pngShot)
    (mkRequest "GET" "/" [("url", ["ftp://example.com"])]) (by decide) (by decide) (by decide)
    (Or.inr ⟨⟨"ftp"⟩, by rfl, by decide, by decide⟩)

/-! ## Rendering: C5, C6 -/

/-- C5: for an accepted render request for which `TakeScreenshot` returns the
bytes `B` and no error, the response has status 200, content type `image/png`,
a `Content-Length` that is the decimal text of the length of `B`, and body
`B`. -/
theorem C5_success_is_png (lib : Lib) (h : Handler) (r : Request) (B : List UInt8)
    (ha : accepted lib r = true) (hres : shotResult h r = (B, none)) :
    (ServeHTTP lib h r).w.status = 200 ∧
      (ServeHTTP lib h r).w.Get "Content-Type" = "image/png" ∧
      (ServeHTTP lib h r).w.Get "Content-Length" = Nat.repr B.length ∧
      (ServeHTTP lib h r).w.body = B := by
  rw [ServeHTTP_accepted lib h r ha, hres]
  simp [ResponseWriter.fresh, ResponseWriter.Set, ResponseWriter.Write,
    ResponseWriter.WriteHeader, ResponseWriter.status, ResponseWriter.Get, headerGet,
    headerSet, headerDel, StatusOK, List.lookup, Itoa]
  rfl

/-- Witness of C5: `GET /?url=https://example.com` with a screenshotter that
returns four bytes. -/
theorem C5_success_is_png_witness :
    (ServeHTTP sampleLib (New pngShot)
        (mkRequest "GET" "/" [("url", ["https://example.com"])])).w.status = 200 ∧
      (ServeHTTP sampleLib (New pngShot)
        (mkRequest "GET" "/" [("url", ["https://example.com"])])).w.Get "Content-Type"
          = "image/png" ∧
      (ServeHTTP sampleLib (New pngShot)
        (mkRequest "GET" "/" [("url", ["https://example.com"])])).w.Get "Content-Length"
          = Nat.repr [(0x89 : UInt8), 0x50, 0x4e, 0x47].length ∧
      (ServeHTTP sampleLib (New pngShot)
        (mkRequest "GET" "/" [("url", ["https://example.com"])])).w.body
          = [0x89, 0x50, 0x4e, 0x47] :=
  C5_success_is_png sampleLib (New pngShot)
    (mkRequest "GET" "/" [("url", ["https://example.com"])]) [0x89, 0x50, 0x4e, 0x47]
    (by decide) (by rfl)

/-- C6 as stated fails: for `GET /?url=https://example.com` and a screenshotter
that fails with `browser crashed`, the body is not the error text: it is the
error text followed by a newline. -/
theorem C6_body_is_not_bare_error_text :
    (shotResult (New crashShot)
        (mkRequest "GET" "/" [("url", ["https://example.com"])])).2 = some "browser crashed" ∧
      (ServeHTTP sampleLib (New crashShot)
        (mkRequest "GET" "/" [("url", ["https://example.com"])])).w.status = 502 ∧
      (ServeHTTP sampleLib (New crashShot)
        (mkRequest "GET" "/" [("url", ["https://example.com"])])).w.body
          ≠ bytesOf "browser crashed" ∧
      (ServeHTTP sampleLib (New crashShot)
        (mkRequest "GET" "/" [("url", ["https://example.com"])])).w.body
          = bytesOf "browser crashed\n" := by
  decide

/-- C6, as the handler behaves: for an accepted render request for which
`TakeScreenshot` returns the error `e`, whatever bytes come with it, the
response has status 502, its body is the text of `e` followed by a newline, its
content type is `text/plain; charset=utf-8` and not `image/png`, and no
`Content-Length` is set. -/
theorem C6_failure_is_502 (lib : Lib) (h : Handler) (r : Request) (e : GoError)
    (ha : accepted lib r = true) (hres : (shotResult h r).2 = some e) :
    (ServeHTTP lib h r).w.status = 502 ∧
      (ServeHTTP lib h r).w.body = bytesOf (e ++ "\n") ∧
      (ServeHTTP lib h r).w.Get "Content-Type" = "text/plain; charset=utf-8" ∧
      (ServeHTTP lib h r).w.Get "Content-Type" ≠ "image/png" ∧
      (ServeHTTP lib h r).w.Get "Content-Length" = "" := by
  rw [ServeHTTP_accepted lib h r ha, hres]
  refine ⟨?_, ?_, ?_, ?_, ?_⟩
  · simp [status_httpError, StatusBadGateway]
  · simp [body_httpError]
  · simp only [ResponseWriter.Get, header_httpError]; decide
  · simp only [ResponseWriter.Get, header_httpError]; decide
  · simp only [ResponseWriter.Get, header_httpError]; decide

/-- Witness of C6: `GET /?url=https://example.com` with a screenshotter that
fails with `browser crashed`. -/
theorem C6_failure_is_502_witness :
    (ServeHTTP sampleLib (New crashShot)
        (mkRequest "GET" "/" [("url", ["https://example.com"])])).w.status = 502 ∧
      (ServeHTTP sampleLib (New crashShot)
        (mkRequest "GET" "/" [("url", ["https://example.com"])])).w.body
          = bytesOf ("browser crashed" ++ "\n") ∧
      (ServeHTTP sampleLib (New crashShot)
        (mkRequest "GET" "/" [("url", ["https://example.com"])])).w.Get "Content-Type"
          = "text/plain; charset=utf-8" ∧
      (ServeHTTP sampleLib (New crashShot)
        (mkRequest "GET" "/" [("url", ["https://example.com"])])).w.Get "Content-Type"
          ≠ "image/png" ∧
      (ServeHTTP sampleLib (New crashShot)
        (mkRequest "GET" "/" [("url", ["https://example.com"])])).w.Get "Content-Length"
          = "" :=
  C6_failure_is_502 sampleLib (New crashShot)
    (mkRequest "GET" "/" [("url", ["https://example.com"])]) "browser crashed"
    (by decide) (by rfl)

/-! ## Parameter normalisation: C3, C4 -/

/-- C3 as stated fails: `9223372036854775808` is a positive integer string, yet
`parseIntOr` returns the fallback for it and not its value. -/
theorem C3_positive_out_of_range_falls_back :
    isPositiveIntegerText "9223372036854775808" = true ∧
      decimalValue "9223372036854775808" = 9223372036854775808 ∧
      parseIntOr "9223372036854775808" 640 = 640 ∧
      parseIntOr "9223372036854775808" 640 ≠ (decimalValue "9223372036854775808" : Int) := by
  decide

/-- C3, as the code behaves: `parseIntOr s f` is `f` when `s` is empty, when
`s` is not numeric, when `s` is `0`, and when `s` starts with a minus sign; it
is the value of `s` when `s` is a positive integer string whose value is at most
`2^63 - 1`, the largest `int`, and it is `f` when that value is larger. The
width and height handed to the screenshotter for an accepted request are
`parseIntOr` of the `width` and `height` values with fallbacks 640 and 480. -/
theorem C3_parseIntOr_within_int_range (s : String) (f : Int) (lib : Lib) (h : Handler)
    (r : Request) (ha : accepted lib r = true) :
    (s = "" → parseIntOr s f = f) ∧
      (isIntegerText s = false → parseIntOr s f = f) ∧
      (s = "0" → parseIntOr s f = f) ∧
      ((∃ cs, s.data = '-' :: cs) → parseIntOr s f = f) ∧
      (isPositiveIntegerText s = true → decimalValue s ≤ 2 ^ 63 - 1 →
        parseIntOr s f = (decimalValue s : Int)) ∧
      (isPositiveIntegerText s = true → 2 ^ 63 ≤ decimalValue s → parseIntOr s f = f) ∧
      (ServeHTTP lib h r).shots.map (fun a => (a.2.1, a.2.2.1)) =
        [(parseIntOr (r.Query.Get "width") 640, parseIntOr (r.Query.Get "height") 480)] := by
  refine ⟨?_, ?_, ?_, ?_, ?_, ?_, ?_⟩
  · rintro rfl
    simp [parseIntOr]
  · intro hn
    exact parseIntOr_of_error s f (ParseInt_of_not_numeric s hn)
  · rintro rfl
    exact parseIntOr_of_nonpos "0" f (by decide)
  · rintro ⟨cs, hcs⟩
    rcases ParseInt_of_minus s cs hcs with h1 | h1
    · exact parseIntOr_of_error s f h1
    · exact parseIntOr_of_nonpos s f h1
  · intro hpos hfit
    simp only [isPositiveIntegerText, Bool.and_eq_true, decide_eq_true_eq] at hpos
    have hlt : decimalValue s < 2 ^ 63 := by omega
    have hA : Atoi s = ((decimalValue s : Int), none) := by
      simp only [Atoi, ParseInt_of_digits s hpos.1, hlt, if_true]
    exact parseIntOr_of_pos s f _ hA (by exact_mod_cast hpos.2)
  · intro hpos hbig
    simp only [isPositiveIntegerText, Bool.and_eq_true, decide_eq_true_eq] at hpos
    have hlt : ¬ (decimalValue s < 2 ^ 63) := by omega
    apply parseIntOr_of_error
    simp only [Atoi, ParseInt_of_digits s hpos.1, hlt, if_false]
    rfl
  · rw [shots_of_accepted lib h r ha]
    rfl

/-- Witness of C3: the string `1024`, and
`GET /?url=https://example.com&width=1024&height=768`. -/
theorem C3_parseIntOr_within_int_range_witness :
    parseIntOr "1024" 640 = 1024 ∧
      (ServeHTTP sampleLib (New pngShot)
        (mkRequest "GET" "/" [("url", ["https://example.com"]), ("width", ["1024"]),
          ("height", ["768"])])).shots.map (fun a => (a.2.1, a.2.2.1)) = [(1024, 768)] :=
  have hw := C3_parseIntOr_within_int_range "1024" 640 sampleLib (New pngShot)
    (mkRequest "GET" "/" [("url", ["https://example.com"]), ("width", ["1024"]),
      ("height", ["768"])])
    (by decide)
  ⟨hw.2.2.2.2.1 (by decide) (by decide), hw.2.2.2.2.2.2⟩

/-- C4 as stated fails: `9223372036854775808` is a positive integer string
above 10000, yet for `GET /?url=https://example.com&delay=9223372036854775808`
the delay handed to the screenshotter is 0 and not 10000. -/
theorem C4_delay_above_int_range_gives_zero :
    isPositiveIntegerText "9223372036854775808" = true ∧
      10000 < decimalValue "9223372036854775808" ∧
      accepted sampleLib (mkRequest "GET" "/" [("url", ["https://example.com"]),
        ("delay", ["9223372036854775808"])]) = true ∧
      (ServeHTTP sampleLib (New pngShot)
        (mkRequest "GET" "/" [("url", ["https://example.com"]),
          ("delay", ["9223372036854775808"])])).shots.map (fun a => a.2.2.2) = [0] ∧
      (ServeHTTP sampleLib (New pngShot)
        (mkRequest "GET" "/" [("url", ["https://example.com"]),
          ("delay", ["9223372036854775808"])])).shots.map (fun a => a.2.2.2) ≠ [10000] := by
  decide

/-- C4, as the code behaves: for an accepted request exactly one screenshot is
requested and its delay is `min(parseIntOr(delay, 0), 10000)`, which lies
between 0 and 10000. When the `delay` value is a positive integer string, the
delay handed over is its value if that is at most 10000, it is 10000 if the
value is above 10000 and at most `2^63 - 1`, the largest `int`, and it is 0 if
the value is larger still. When the `delay` value is absent or empty, not
numeric, `0`, or starts with a minus sign, the delay handed over is 0. -/
theorem C4_delay_is_clamped_within_int_range (lib : Lib) (h : Handler) (r : Request)
    (ha : accepted lib r = true) :
    (ServeHTTP lib h r).shots.map (fun a => a.2.2.2) =
        [min (parseIntOr (r.Query.Get "delay") 0) 10000] ∧
      0 ≤ min (parseIntOr (r.Query.Get "delay") 0) 10000 ∧
      min (parseIntOr (r.Query.Get "delay") 0) 10000 ≤ 10000 ∧
      (isPositiveIntegerText (r.Query.Get "delay") = true →
        decimalValue (r.Query.Get "delay") ≤ 10000 →
          (ServeHTTP lib h r).shots.map (fun a => a.2.2.2) =
            [(decimalValue (r.Query.Get "delay") : Int)]) ∧
      (isPositiveIntegerText (r.Query.Get "delay") = true →
        10000 < decimalValue (r.Query.Get "delay") →
          decimalValue (r.Query.Get "delay") ≤ 2 ^ 63 - 1 →
            (ServeHTTP lib h r).shots.map (fun a => a.2.2.2) = [10000]) ∧
      (isPositiveIntegerText (r.Query.Get "delay") = true →
        2 ^ 63 ≤ decimalValue (r.Query.Get "delay") →
          (ServeHTTP lib h r).shots.map (fun a => a.2.2.2) = [0]) ∧
      (r.Query.Get "delay" = "" ∨ isIntegerText (r.Query.Get "delay") = false ∨
        r.Query.Get "delay" = "0" ∨ (∃ cs, (r.Query.Get "delay").data = '-' :: cs) →
          (ServeHTTP lib h r).shots.map (fun a => a.2.2.2) = [0]) := by
  have hnn := parseIntOr_nonneg (r.Query.Get "delay")
  have hshots : (ServeHTTP lib h r).shots.map (fun a => a.2.2.2) =
      [min (parseIntOr (r.Query.Get "delay") 0) 10000] := by
    rw [shots_of_accepted lib h r ha]
    rfl
  have hzero : parseIntOr (r.Query.Get "delay") 0 = 0 →
      (ServeHTTP lib h r).shots.map (fun a => a.2.2.2) = [0] := by
    intro h0
    rw [hshots, h0]
    rfl
  refine ⟨hshots, ?_, ?_, ?_, ?_, ?_, ?_⟩
  · exact le_min hnn (by decide)
  · exact min_le_right _ _
  · intro hpos hle
    rw [hshots, parseIntOr_of_positive_fits _ 0 hpos (by omega)]
    have hle2 : (decimalValue (r.Query.Get "delay") : Int) ≤ 10000 := by exact_mod_cast hle
    rw [min_eq_left hle2]
  · intro hpos hbig hfit
    rw [hshots, parseIntOr_of_positive_fits _ 0 hpos hfit]
    have hbig2 : (10000 : Int) ≤ (decimalValue (r.Query.Get "delay") : Int) := by
      exact_mod_cast (le_of_lt hbig)
    rw [min_eq_right hbig2]
  · intro hpos hover
    exact hzero (parseIntOr_of_positive_overflow _ 0 hpos hover)
  · rintro (h0 | h0 | h0 | ⟨cs, hcs⟩)
    · exact hzero (by rw [h0]; decide)
    · exact hzero (parseIntOr_of_error _ 0 (ParseInt_of_not_numeric _ h0))
    · exact hzero (by rw [h0]; decide)
    · rcases ParseInt_of_minus _ cs hcs with h1 | h1
      · exact hzero (parseIntOr_of_error _ 0 h1)
      · exact hzero (parseIntOr_of_nonpos _ 0 h1)

/-- Witness of C4: `GET /?url=https://example.com` with `delay=99999` hands over
10000, with `delay=500` hands over 500, and with `delay=-5` hands over 0. -/
theorem C4_delay_is_clamped_within_int_range_witness :
    (ServeHTTP sampleLib (New pngShot)
        (mkRequest "GET" "/" [("url", ["https://example.com"]), ("delay", ["99999"])])).shots.map
          (fun a => a.2.2.2) = [10000] ∧
      (ServeHTTP sampleLib (New pngShot)
        (mkRequest "GET" "/" [("url", ["https://example.com"]), ("delay", ["500"])])).shots.map
          (fun a => a.2.2.2) = [500] ∧
      (ServeHTTP sampleLib (New pngShot)
        (mkRequest "GET" "/" [("url", ["https://example.com"]), ("delay", ["-5"])])).shots.map
          (fun a => a.2.2.2) = [0] :=
  ⟨(C4_delay_is_clamped_within_int_range sampleLib (New pngShot)
      (mkRequest "GET" "/" [("url", ["https://example.com"]), ("delay", ["99999"])])
      (by decide)).2.2.2.2.1 (by decide) (by decide) (by decide),
    (C4_delay_is_clamped_within_int_range sampleLib (New pngShot)
      (mkRequest "GET" "/" [("url", ["https://example.com"]), ("delay", ["500"])])
      (by decide)).2.2.2.1 (by decide) (by decide),
    (C4_delay_is_clamped_within_int_range sampleLib (New pngShot)
      (mkRequest "GET" "/" [("url", ["https://example.com"]), ("delay", ["-5"])])
      (by decide)).2.2.2.2.2.2 (Or.inr (Or.inr (Or.inr ⟨['5'], rfl⟩)))⟩

/-! ## The scheme step: C2 -/

theorem containsChars_of_isPrefixOf_dropWhile (sub : List Char) (p : Char → Bool)
    (l : List Char) (h : sub.isPrefixOf (l.dropWhile p) = true) :
    containsChars sub l = true := by
  induction l with
  | nil => simpa [containsChars] using h
  | cons c cs ih =>
    by_cases hp : p c = true
    · simp only [List.dropWhile_cons, hp, if_true] at h
      simp [containsChars, ih h]
    · simp only [List.dropWhile_cons, hp] at h
      simp only [containsChars, Bool.or_eq_true]
      exact Or.inl h

/-- The scheme step leaves a value that starts with `scheme://` unchanged. -/
theorem addScheme_of_startsWithScheme (v : String) (h : startsWithScheme v = true) :
    addScheme v = v := by
  unfold startsWithScheme at h
  have hc : stringsContains v "://" = true := by
    unfold stringsContains
    cases hv : v.data with
    | nil => simp [hv] at h
    | cons c cs =>
      rw [hv] at h
      simp only [Bool.and_eq_true] at h
      simp only [containsChars, Bool.or_eq_true]
      exact Or.inr (containsChars_of_isPrefixOf_dropWhile _ _ _ h.2)
  simp [addScheme, hc]

/-- The scheme step puts `https://` once in front of a value in which `://`
does not occur. -/
theorem addScheme_of_not_contains (v : String) (h : stringsContains v "://" = false) :
    addScheme v = "https://" ++ v := by
  simp [addScheme, h]

/-- C2 at `url=example.com/?next=http://foo`: the value does not start with
`scheme://`, yet the scheme step leaves it as it is because `://` occurs
further on; the parser receives it without `https://`, finds no scheme, and the
request is answered with 400 without a screenshot, although the value with
`https://` in front would have been accepted. -/
theorem C2_scheme_not_added_when_separator_occurs_later :
    startsWithScheme "example.com/?next=http://foo" = false ∧
      addScheme "example.com/?next=http://foo" = "example.com/?next=http://foo" ∧
      (ServeHTTP sampleLib (New pngShot)
        (mkRequest "GET" "/" [("url", ["example.com/?next=http://foo"])])).trace
          = [Effect.urlParse "example.com/?next=http://foo"] ∧
      (ServeHTTP sampleLib (New pngShot)
        (mkRequest "GET" "/" [("url", ["example.com/?next=http://foo"])])).w.status = 400 ∧
      (ServeHTTP sampleLib (New pngShot)
        (mkRequest "GET" "/" [("url", ["https://example.com/?next=http://foo"])])).shots
          = [("https://example.com/?next=http://foo", 640, 480, 0)] := by
  decide

/-! ## The render-engine adapter: C8 -/

/-- C8: when the request context is already cancelled at the check before
navigation, `Browser.TakeScreenshot` returns an error and no bytes, and neither
`page.Goto` nor `page.Screenshot` is called, for every url, width, height and
delay; when the browsing context and the page were created, the error is the one
the context reports. -/
theorem C8_cancelled_before_navigation (b : Browser) (pw : Playwright) (reqCtx : Context)
    (url : String) (width height delayMs : Int) (e : GoError)
    (hc : reqCtx.errBeforeGoto = some e) :
    (TakeScreenshot b pw reqCtx url width height delayMs).err.isSome = true ∧
      (TakeScreenshot b pw reqCtx url width height delayMs).png = [] ∧
      (∀ s ∈ (TakeScreenshot b pw reqCtx url width height delayMs).steps,
        s.isGoto = false ∧ s.isScreenshot = false) ∧
      (pw.newContext = none → pw.newPage = none →
        (TakeScreenshot b pw reqCtx url width height delayMs).err = some e) := by
  unfold TakeScreenshot
  cases h1 : pw.newContext with
  | some e1 => simp [Step.isGoto, Step.isScreenshot]
  | none =>
    cases h2 : pw.newPage with
    | some e2 => simp [Step.isGoto, Step.isScreenshot]
    | none => simp [hc, Step.isGoto, Step.isScreenshot]

/-- Witness of C8: a healthy browser and a context cancelled from the start. -/
theorem C8_cancelled_before_navigation_witness :
    (TakeScreenshot ⟨DefaultTimeout⟩ healthyPlaywright
        ⟨some "context canceled", some "context canceled", some "context canceled"⟩
        "https://example.com" 640 480 500).err.isSome = true ∧
      (TakeScreenshot ⟨DefaultTimeout⟩ healthyPlaywright
        ⟨some "context canceled", some "context canceled", some "context canceled"⟩
        "https://example.com" 640 480 500).png = [] ∧
      (∀ s ∈ (TakeScreenshot ⟨DefaultTimeout⟩ healthyPlaywright
        ⟨some "context canceled", some "context canceled", some "context canceled"⟩
        "https://example.com" 640 480 500).steps, s.isGoto = false ∧ s.isScreenshot = false) ∧
      (healthyPlaywright.newContext = none → healthyPlaywright.newPage = none →
        (TakeScreenshot ⟨DefaultTimeout⟩ healthyPlaywright
          ⟨some "context canceled", some "context canceled", some "context canceled"⟩
          "https://example.com" 640 480 500).err = some "context canceled") :=
  C8_cancelled_before_navigation ⟨DefaultTimeout⟩ healthyPlaywright
    ⟨some "context canceled", some "context canceled", some "context canceled"⟩
    "https://example.com" 640 480 500 "context canceled" rfl

end Pagecap
